import Mathlib

/-!
Verification development for the `anobbsclient` request-orchestration core
(`src/anobbsclient/client.py`, `src/anobbsclient/objects.py`).

Shallow embedding conventions:
* Raw server records (Python `OrderedDict`) are ordered association lists
  `List (String × PyVal)`; reply records are flat scalar maps.
* Python exceptions become `Except` errors (`PyError` for language-level
  errors such as `KeyError`/`TypeError`, domain exceptions get their own
  constructors).
* External collaborators (HTTP transport, HTML parsing, JSON decoding) are
  oracles / pre-parsed structures, as the spec designates them "given
  primitives".
* `requestutils.try_request`, `options` and the `BaseClient` accessors are
  not present under `src/`; they are modelled from the spec (see the doc
  comments below).  Everything else is translated from the Python source.
-/

namespace Anobbsclient

/-- A scalar JSON value as it appears in a reply record on the wire. -/
inductive Scalar where
  | str (s : String)
  | int (n : Int)
deriving DecidableEq

/-- Raw record of a single reply post: an ordered key→scalar map. -/
abbrev PostRaw := List (String × Scalar)

/-- A Python value stored in a thread-level raw record: scalars, `None`,
a nested collection of reply records, or the lazy `map` object that
`Thread.to_json` builds (`map(lambda post: post.body, ...)`).  That map
object's contents are never observable: `json.dumps` rejects any `map`
object outright, and consuming it would raise `AttributeError` because
`Post` defines no `body` attribute; hence the constructor carries no data. -/
inductive PyVal where
  | str (s : String)
  | int (n : Int)
  | pynone
  | postList (xs : List PostRaw)
  | mapOfBody
deriving DecidableEq

/-- Raw record of a thread/post: an ordered key→value map (`OrderedDict`). -/
abbrev Raw := List (String × PyVal)

/-- Python language-level exceptions raised by the modelled code. -/
inductive PyError where
  | keyError
  | typeError
  | attributeError
deriving DecidableEq

/-- Lookup in an ordered association list (`k in d` / `d[k]` succeed case). -/
def assocFind {β : Type} : List (String × β) → String → Option β
  | [], _ => none
  | (k0, v0) :: rest, k => if k0 = k then some v0 else assocFind rest k

/-- Python `d[k] = v`: overwrite in place (keeping position) when the key is
present, append otherwise. -/
def assocSet {β : Type} : List (String × β) → String → β → List (String × β)
  | [], k, v => [(k, v)]
  | (k0, v0) :: rest, k, v =>
      if k0 = k then (k, v) :: rest else (k0, v0) :: assocSet rest k v

/-- Python `d.pop(k, None)`: drop the entry for `k` when present. -/
def assocErase {β : Type} : List (String × β) → String → List (String × β)
  | [], _ => []
  | (k0, v0) :: rest, k =>
      if k0 = k then rest else (k0, v0) :: assocErase rest k

/-- Python `d[k]`: raises `KeyError` when the key is absent. -/
def dictGet {β : Type} (d : List (String × β)) (k : String) : Except PyError β :=
  match assocFind d k with
  | some v => Except.ok v
  | none => Except.error PyError.keyError

/-- `objects._none_if`: map a designated sentinel value to `None`. -/
def _none_if (content : PyVal) (none_mark : PyVal) : Option PyVal :=
  if content = none_mark then none else some content

/-- `objects.Post`: a read-only projection over its raw record. -/
structure Post where
  _raw : Raw
deriving DecidableEq

/-- Embed a flat reply record into the thread-level raw representation. -/
def scalarVal : Scalar → PyVal
  | .str s => .str s
  | .int n => .int n

/-- `Post(post)` applied to one raw reply record. -/
def Post.ofReply (r : PostRaw) : Post :=
  ⟨r.map (fun kv => (kv.1, scalarVal kv.2))⟩

def Post.id (p : Post) : Except PyError PyVal :=
  dictGet p._raw "id"

def Post.attachment_base (p : Post) : Except PyError (Option PyVal) :=
  (dictGet p._raw "img").map (fun v => _none_if v (.str ""))

def Post.attachment_extension (p : Post) : Except PyError (Option PyVal) :=
  (dictGet p._raw "ext").map (fun v => _none_if v (.str ""))

def Post.created_at_raw_text (p : Post) : Except PyError PyVal :=
  dictGet p._raw "now"

def Post.user_id (p : Post) : Except PyError PyVal :=
  dictGet p._raw "userid"

def Post.name (p : Post) : Except PyError (Option PyVal) :=
  (dictGet p._raw "name").map (fun v => _none_if v (.str "无名氏"))

def Post.email (p : Post) : Except PyError (Option PyVal) :=
  (dictGet p._raw "email").map (fun v => _none_if v (.str ""))

def Post.title (p : Post) : Except PyError (Option PyVal) :=
  (dictGet p._raw "title").map (fun v => _none_if v (.str "无标题"))

def Post.content (p : Post) : Except PyError PyVal :=
  dictGet p._raw "content"

def Post.marked_sage (p : Post) : Except PyError Bool :=
  (dictGet p._raw "sage").map (fun v => decide (v ≠ .str "0"))

def Post.marked_admin (p : Post) : Except PyError Bool :=
  (dictGet p._raw "admin").map (fun v => decide (v ≠ .str "0"))

/-- The state of `Thread.__replies`: either the unconsumed
`map(lambda post: Post(post), raw["replys"])` iterator built by
`Thread.__init__`, or a plain list installed through the `replies` setter. -/
inductive Replies where
  | lazyMap (xs : List PostRaw)
  | posts (ps : List Post)
deriving DecidableEq

/-- Consume the replies iterator / read the list (Python `list(...)` or
iteration over `Thread.replies`). -/
def Replies.toPostList : Replies → List Post
  | .lazyMap xs => xs.map Post.ofReply
  | .posts ps => ps

/-- `objects.Thread`: a `Post` that additionally owns the (optional,
lazily materialized) reply sequence. -/
structure Thread where
  _raw : Raw
  __replies : Option Replies
deriving DecidableEq

/-- `Thread.__init__(data)`: when the record carries a `"replys"`
collection, build the lazy `map` of `Post`s over it and overwrite the raw
entry with `None` in place (the source comment: keep it, don't `pop`, to
preserve field order).  `map()` over a non-collection value is modelled as
an immediate `TypeError` (wire records always carry a list here). -/
def Thread.ofData (data : Raw) : Except PyError Thread :=
  match assocFind data "replys" with
  | some (.postList xs) =>
      Except.ok ⟨assocSet data "replys" .pynone, some (.lazyMap xs)⟩
  | some _ => Except.error PyError.typeError
  | none => Except.ok ⟨data, none⟩

def Thread.total_reply_count (t : Thread) : Except PyError PyVal :=
  dictGet t._raw "replyCount"

/-- `json.dumps` modelled as a structural primitive: it reproduces the
ordered record when every stored value is JSON-serializable and raises
`TypeError` otherwise.  A lazy `map` object is not serializable.  (The
textual rendering is elided; field order is the order of the returned
record.) -/
def PyVal.serializable : PyVal → Bool
  | .mapOfBody => false
  | _ => true

def json_dumps (d : Raw) : Except PyError Raw :=
  if d.all (fun kv => kv.2.serializable) then Except.ok d
  else Except.error PyError.typeError

/-- `Thread.to_json`: copy the raw record; when `__replies` is not `None`,
store `map(lambda post: post.body, self.__replies)` under `"replys"`
(overwriting the `None` placeholder in place), else `pop` the key; then
`json.dumps` the result. -/
def Thread.to_json (t : Thread) : Except PyError Raw :=
  match t.__replies with
  | some _ => json_dumps (assocSet t._raw "replys" .mapOfBody)
  | none => json_dumps (assocErase t._raw "replys")

/-- `options.LoginPolicy`: the four recognized policy values (the module
itself is not under `src/`; the spec fixes this enumeration, and
`client.page_requires_login` matches exactly these strings). -/
inductive LoginPolicy where
  | enforce
  | when_has_cookie
  | always_no
  | when_required
deriving DecidableEq

/-- `Client.page_requires_login`: the pure login-gatekeeper decision.
The `BaseClient` option accessors (`get_login_policy`, `has_cookie`) are
absent from `src/` and enter as explicit parameters; with the policy
enumeration total, the final `ShouldNotReachException` branch of the
source is unreachable. -/
def page_requires_login (page gate_keeper : Nat) (login_policy : LoginPolicy)
    (has_cookie : Bool) : Bool :=
  match login_policy with
  | .enforce => true
  | .when_has_cookie => has_cookie || decide (page > gate_keeper)
  | .always_no => decide (page > gate_keeper)
  | .when_required => decide (page > gate_keeper)

/-- `exceptions.GatekeptException` as raised by
`Client.board_page_requires_login` (both numeric fields are passed as
`None` there, so only the context string carries data). -/
structure GatekeptException where
  context : String
deriving DecidableEq

/-- `Client.board_page_requires_login`: hard-gate pages beyond the board
gatekeeper page, otherwise defer to the generic decision. -/
def board_page_requires_login (page gk_pn : Nat) (login_policy : LoginPolicy)
    (has_cookie : Bool) : Except GatekeptException Bool :=
  if page > gk_pn then
    Except.error ⟨"check_if_board_page_requires_login"⟩
  else
    Except.ok (page_requires_login page gk_pn login_policy has_cookie)

/-- `Client.thread_page_requires_login`: the generic decision with the
thread gatekeeper page. -/
def thread_page_requires_login (page gk_pn : Nat) (login_policy : LoginPolicy)
    (has_cookie : Bool) : Bool :=
  page_requires_login page gk_pn login_policy has_cookie

/-- `requestutils.BandwidthUsage`: bytes uploaded / downloaded for one
logical operation (the module is not under `src/`; the spec fixes the two
non-negative counters). -/
structure BandwidthUsage where
  uploaded : Nat
  downloaded : Nat
deriving DecidableEq

instance : Add BandwidthUsage :=
  ⟨fun a b => ⟨a.uploaded + b.uploaded, a.downloaded + b.downloaded⟩⟩

instance : Zero BandwidthUsage := ⟨⟨0, 0⟩⟩

/-- Domain (fatal) failures raised inside a request function. -/
inductive FetchError where
  | resourceNotExists
  | noPermission
  | pyError (e : PyError)
deriving DecidableEq

/-- One invocation of a request function: a typed result, a retryable
(transient) failure, or a fatal failure — each carrying the bandwidth the
attempt consumed. -/
inductive Attempt (α : Type) where
  | ok (value : α) (bw : BandwidthUsage)
  | retryable (e : String) (bw : BandwidthUsage)
  | fatal (e : FetchError) (bw : BandwidthUsage)
deriving DecidableEq

/-- Final outcome of the executor, with the bandwidth total accumulated
over every attempt, failed ones included. -/
inductive ExecResult (α : Type) where
  | ok (value : α) (total : BandwidthUsage)
  | fatal (e : FetchError) (total : BandwidthUsage)
  | exhausted (opName : String) (attempts : Nat) (lastError : String)
      (total : BandwidthUsage)
deriving DecidableEq

/-- Modelled from the spec: the recursion core of
`requestutils.try_request`, which is not under `src/` (only its callers
are).  Per spec §4.2 the executor invokes the request function up to the
attempt ceiling; a fatal failure propagates immediately; exhausting the
retries propagates the last retryable failure annotated with the
operation name and the attempt count; bandwidth is accumulated across all
attempts.  `attempt` is the 1-based index of the current attempt,
`remaining` the number of further attempts allowed; the second component
of the result is the number of attempts actually performed. -/
def try_request_go (fn : Nat → Attempt α) (opName : String) :
    Nat → Nat → BandwidthUsage → ExecResult α × Nat
  | attempt, remaining, acc =>
    match fn attempt with
    | .ok v bw => (.ok v (acc + bw), attempt)
    | .fatal e bw => (.fatal e (acc + bw), attempt)
    | .retryable e bw =>
        match remaining with
        | 0 => (.exhausted opName attempt e (acc + bw), attempt)
        | r + 1 => try_request_go fn opName (attempt + 1) r (acc + bw)

/-- Modelled from the spec: `requestutils.try_request(request_fn,
description, max_attempts)` (not under `src/`).  Runs the request function
up to `max_attempts` times starting from attempt 1. -/
def try_request (fn : Nat → Attempt α) (opName : String) (max_attempts : Nat) :
    ExecResult α × Nat :=
  try_request_go fn opName 1 (max_attempts - 1) 0

/-- Outcome of a retrieval workflow: the two pre-network failures, a crash
of the post-decode phase, or the executor's result. -/
inductive FetchOutcome (α : Type) where
  | gated
  | requiresLogin
  | crashed (e : PyError)
  | exec (r : ExecResult α)
deriving DecidableEq

/-- What `BaseClient._get_json` yields for one thread-page request: a
transient transport failure, or the decoded JSON payload, which for this
endpoint is either the "thread does not exist" sentinel string or a
structured thread record (spec §6). -/
inductive ThreadResp where
  | transient (e : String) (bw : BandwidthUsage)
  | notExists (bw : BandwidthUsage)
  | record (d : Raw) (bw : BandwidthUsage)

/-- The `request_fn` closure of `Client.get_thread_page`: raise
`ResourceNotExistsException` on the sentinel payload, otherwise decode the
record into a `ThreadPage`.  The `ThreadPage` class is imported from
`objects` but absent from `src/objects.py`; per spec §4.3 a thread page
decodes into a Thread, so it is modelled as `Thread`. -/
def thread_request_fn (oracle : Nat → ThreadResp) (attempt : Nat) :
    Attempt Thread :=
  match oracle attempt with
  | .transient e bw => .retryable e bw
  | .notExists bw => .fatal .resourceNotExists bw
  | .record d bw =>
      match Thread.ofData d with
      | .ok t => .ok t bw
      | .error e => .fatal (.pyError e) bw

/-- The predicate of the `for_analysis` filter:
`post.user_id != "芦苇"` (meaningful on posts whose lookup succeeds). -/
def keepPost (p : Post) : Bool :=
  match p.user_id with
  | .ok v => decide (v ≠ .str "芦苇")
  | .error _ => false

/-- Python `filter(lambda post: post.user_id != "芦苇", posts)` consumed by
`list(...)`: the predicate itself may raise (`KeyError` on a record with
no `userid`), which aborts the whole filtering. -/
def analysisFilter : List Post → Except PyError (List Post)
  | [] => Except.ok []
  | p :: ps =>
      match p.user_id with
      | .error e => Except.error e
      | .ok v =>
          (analysisFilter ps).map
            (fun rest => if v ≠ .str "芦苇" then p :: rest else rest)

/-- The post-processing step of `Client.get_thread_page` under
`for_analysis`: `thread_page.replies = list(filter(...))`.  When
`__replies` is `None`, Python's `filter(pred, None)` raises `TypeError`. -/
def applyAnalysisFilter (t : Thread) : Except PyError Thread :=
  match t.__replies with
  | none => Except.error PyError.typeError
  | some r =>
      (analysisFilter r.toPostList).map
        (fun ps => ⟨t._raw, some (.posts ps)⟩)

/-- `Client.get_thread_page`: gatekeeper check, fail-fast on missing
credential, then the executor, then the optional analysis filter.  The
`BaseClient` option accessors are absent from `src/` and enter as explicit
parameters (`gk_pn` = thread gatekeeper page number, default 100 upstream).
The second component counts network attempts actually performed. -/
def get_thread_page (id : Int) (page gk_pn : Nat) (login_policy : LoginPolicy)
    (has_cookie : Bool) (max_attempts : Nat) (for_analysis : Bool)
    (oracle : Nat → ThreadResp) : FetchOutcome Thread × Nat :=
  let needs_login := thread_page_requires_login page gk_pn login_policy has_cookie
  if needs_login && !has_cookie then
    (.requiresLogin, 0)
  else
    let opName := "获取串 " ++ toString id ++ " 第 " ++ toString page ++ " 页"
    let res := try_request (thread_request_fn oracle) opName max_attempts
    match res.1 with
    | .ok t bw =>
        if for_analysis then
          match applyAnalysisFilter t with
          | .ok t2 => (.exec (.ok t2 bw), res.2)
          | .error e => (.crashed e, res.2)
        else (.exec (.ok t bw), res.2)
    | .fatal e bw => (.exec (.fatal e bw), res.2)
    | .exhausted op n le bw => (.exec (.exhausted op n le bw), res.2)

/-- What `BaseClient._get_json` yields for one board-page request: a
transient failure or the decoded listing (an ordered sequence of thread
records, spec §6). -/
inductive BoardResp where
  | transient (e : String) (bw : BandwidthUsage)
  | records (threads : List Raw) (bw : BandwidthUsage)

/-- `list(map(lambda thread: BoardThread(thread), threads))`.  The
`BoardThread` class is imported from `objects` but absent from
`src/objects.py`; per spec §3 a Board is an ordered sequence of Thread, so
it is modelled as `Thread`. -/
def decodeBoard : List Raw → Except PyError (List Thread)
  | [] => Except.ok []
  | d :: ds =>
      match Thread.ofData d with
      | .error e => Except.error e
      | .ok t => (decodeBoard ds).map (fun ts => t :: ts)

/-- The `request_fn` closure of `Client.get_board_page`. -/
def board_request_fn (oracle : Nat → BoardResp) (attempt : Nat) :
    Attempt (List Thread) :=
  match oracle attempt with
  | .transient e bw => .retryable e bw
  | .records ts bw =>
      match decodeBoard ts with
      | .ok threads => .ok threads bw
      | .error e => .fatal (.pyError e) bw

/-- `Client.get_board_page`: board gatekeeper check (which may raise
`GatekeptException`), fail-fast on missing credential, then the executor.
The second component counts network attempts actually performed. -/
def get_board_page (board_id : Int) (page gk_pn : Nat)
    (login_policy : LoginPolicy) (has_cookie : Bool) (max_attempts : Nat)
    (oracle : Nat → BoardResp) : FetchOutcome (List Thread) × Nat :=
  match board_page_requires_login page gk_pn login_policy has_cookie with
  | .error _ => (.gated, 0)
  | .ok needs_login =>
      if needs_login && !has_cookie then
        (.requiresLogin, 0)
      else
        let opName :=
          "获取版块 " ++ toString board_id ++ " 第 " ++ toString page ++ " 页"
        let res := try_request (board_request_fn oracle) opName max_attempts
        (.exec res.1, res.2)

/-- An element of the parsed markup tree, as produced by the external
HTML-parsing primitive: a tag name, the value of its `class` attribute,
and its text content. -/
structure Element where
  tag : String
  cls : String
  text : String
deriving DecidableEq

/-- `sys_msg_div.find_all('p', attrs=...)` with a class value `c`: the
`p`-tagged descendants of the container carrying that class. -/
def find_all_p (div : List Element) (c : String) : List Element :=
  div.filter (fun e => e.tag == "p" && e.cls == c)

/-- Outcome of the reply submission workflow. -/
inductive ReplyResult where
  | success
  | httpFailure (e : String)
  | unknownResponse (response_body : String)
  | replyException (raw_error : String) (raw_detail : Option String)
deriving DecidableEq

/-- The response interpreter of `Client.reply_thread` (lines 183–205):
given the raw response body and the `div.system-message` container found
by the external markup parser (`None` when absent), classify the response.
Python's `error_divs[0]` / `detail_divs[0]` after the emptiness checks
become head-pattern matches. -/
def interpret_reply_response (resp_body : String)
    (sys_msg_div : Option (List Element)) : ReplyResult :=
  match sys_msg_div with
  | none => .unknownResponse resp_body
  | some div =>
      let success_divs := find_all_p div "success"
      if success_divs.length ≠ 0 then .success
      else
        match find_all_p div "error" with
        | [] => .unknownResponse resp_body
        | e0 :: _ =>
            let raw_detail :=
              match find_all_p div "detail" with
              | [] => none
              | d0 :: _ => if d0.text = "" then none else some d0.text
            .replyException e0.text raw_detail

/-- `reply_thread`'s multipart form (lines 169–176): `appid` only when the
client has one; absent optional fields become empty strings. -/
def reply_thread_form (appid : Option String) (content : String)
    (name email title : Option String) (to_thread_id : Int) :
    List (String × String) :=
  (match appid with
   | some a => [("appid", a)]
   | none => []) ++
  [("content", content),
   ("name", name.getD ""),
   ("email", email.getD ""),
   ("title", title.getD ""),
   ("resto", toString to_thread_id)]

/-- One HTTP POST of the write endpoint, as seen by the client: either a
transport/status failure (`raise_for_status` included) or a response body
together with the `system-message` container the markup parser finds in
it. -/
inductive PostResp where
  | failure (e : String)
  | html (body : String) (sys_msg_div : Option (List Element))

/-- `Client.reply_thread` (lines 165–205): performs the POST **once** —
the source never routes the write through `try_request` — and interprets
the response.  `max_attempts` is the configured executor ceiling, which
this workflow never consults; the second component counts POSTs actually
performed.  Session construction and the form upload are delegated to the
transport oracle. -/
def reply_thread (oracle : Nat → PostResp) (max_attempts : Nat) :
    ReplyResult × Nat :=
  let _ := max_attempts
  match oracle 1 with
  | .failure e => (.httpFailure e, 1)
  | .html body div => (interpret_reply_response body div, 1)

/-! ### Concrete fixtures used by the witness theorems -/

/-- A request function that fails transiently on the first two attempts
and succeeds on the third. -/
def fnTwiceThenOk : Nat → Attempt Nat := fun n =>
  if n = 1 then .retryable "ConnectionError" ⟨1, 2⟩
  else if n = 2 then .retryable "Timeout" ⟨3, 4⟩
  else .ok 7 ⟨5, 6⟩

/-- A board-page oracle that always answers with an empty listing. -/
def boardOracleEmpty : Nat → BoardResp := fun _ => .records [] ⟨0, 0⟩

/-- A thread-page oracle that always fails transiently. -/
def threadOracleDown : Nat → ThreadResp := fun _ => .transient "Timeout" ⟨0, 0⟩

/-- The error-marker fixture of the spec: container with an `error` marker
and an empty `detail`. -/
def fixtureErrorDiv : List Element :=
  [⟨"h1", "", ":("⟩, ⟨"p", "error", "没有选定回复的帖子"⟩, ⟨"p", "detail", ""⟩]

/-- The success fixture: container with a `success` marker. -/
def fixtureSuccessDiv : List Element :=
  [⟨"h1", "", ":)"⟩, ⟨"p", "success", "回复成功"⟩, ⟨"p", "detail", ""⟩]

/-- A write-endpoint oracle that fails transiently on the first POST and
would succeed on a second one. -/
def replyOracleFlaky : Nat → PostResp := fun n =>
  if n = 1 then .failure "HTTPError"
  else .html "ok" (some fixtureSuccessDiv)

/-- A raw reply record with every field populated. -/
def rawReply : PostRaw :=
  [("id", .int 2), ("img", .str ""), ("ext", .str ""),
   ("now", .str "2021-03-07"), ("userid", .str "abc123"),
   ("name", .str "无名氏"), ("email", .str ""), ("title", .str "无标题"),
   ("content", .str "re"), ("sage", .str "0"), ("admin", .str "0")]

/-- A raw reply record authored by the reserved system identity. -/
def rawReplyLuwei : PostRaw :=
  [("id", .int 3), ("img", .str ""), ("ext", .str ""),
   ("now", .str "2021-03-07"), ("userid", .str "芦苇"),
   ("name", .str "芦苇"), ("email", .str ""), ("title", .str "无标题"),
   ("content", .str "ad"), ("sage", .str "0"), ("admin", .str "0")]

/-- A raw thread record carrying a nested reply collection. -/
def rawThreadWithReplies : Raw :=
  [("id", .int 1), ("img", .str ""), ("ext", .str ""),
   ("now", .str "2021-03-07"), ("userid", .str "abc123"),
   ("name", .str "无名氏"), ("email", .str ""), ("title", .str "无标题"),
   ("content", .str "op"), ("sage", .str "0"), ("admin", .str "0"),
   ("replyCount", .str "2"),
   ("replys", .postList [rawReply, rawReplyLuwei])]

/-- The same thread record with no reply collection at all. -/
def rawThreadNoReplies : Raw :=
  [("id", .int 1), ("img", .str ""), ("ext", .str ""),
   ("now", .str "2021-03-07"), ("userid", .str "abc123"),
   ("name", .str "无名氏"), ("email", .str ""), ("title", .str "无标题"),
   ("content", .str "op"), ("sage", .str "0"), ("admin", .str "0"),
   ("replyCount", .str "2")]

/-- A thread-page oracle answering at once with `rawThreadWithReplies`. -/
def threadOracleReplies : Nat → ThreadResp := fun _ =>
  .record rawThreadWithReplies ⟨11, 250⟩

/-! ### Helper lemmas -/

theorem bw_zero_add (b : BandwidthUsage) : (0 : BandwidthUsage) + b = b := by
  cases b with
  | mk u d =>
      show BandwidthUsage.mk (0 + u) (0 + d) = ⟨u, d⟩
      simp

/-- Looking a key up in an embedded reply record. -/
theorem assocFind_ofReply (r : PostRaw) (k : String) :
    assocFind (r.map (fun kv => (kv.1, scalarVal kv.2))) k
      = (assocFind r k).map scalarVal := by
  induction r with
  | nil => rfl
  | cons kv rest ih =>
      by_cases h : kv.1 = k <;> simp [assocFind, h, ih]

/-- `analysisFilter` succeeds and agrees with `List.filter keepPost` as
soon as every post's `userid` lookup succeeds. -/
theorem analysisFilter_ok (ps : List Post)
    (h : ∀ p ∈ ps, ∃ v, p.user_id = Except.ok v) :
    analysisFilter ps = Except.ok (ps.filter keepPost) := by
  induction ps with
  | nil => rfl
  | cons p rest ih =>
      obtain ⟨v, hv⟩ := h p (by simp)
      have ihh := ih (fun q hq => h q (by simp [hq]))
      by_cases hvv : v = .str "芦苇" <;>
        simp [analysisFilter, hv, ihh, List.filter_cons, keepPost, hvv,
          Except.map]

/-! ### Claim theorems -/

/-- C1: for every `(policy, page, gatekeeperPage, hasCredential)`,
`page_requires_login` returns `true` under `enforce`;
`hasCredential ∨ page > gatekeeperPage` under `when_has_cookie`; and
`page > gatekeeperPage` under both `always_no` and `when_required` — in
particular the last two ignore credential presence and behave identically
to each other. -/
theorem page_requires_login_truth_table (page gate_keeper : Nat)
    (has_cookie : Bool) :
    page_requires_login page gate_keeper .enforce has_cookie = true
    ∧ page_requires_login page gate_keeper .when_has_cookie has_cookie
        = (has_cookie || decide (page > gate_keeper))
    ∧ page_requires_login page gate_keeper .always_no has_cookie
        = decide (page > gate_keeper)
    ∧ page_requires_login page gate_keeper .when_required has_cookie
        = decide (page > gate_keeper)
    ∧ (∀ c1 c2 : Bool,
        page_requires_login page gate_keeper .always_no c1
          = page_requires_login page gate_keeper .when_required c2) :=
  ⟨rfl, rfl, rfl, rfl, fun _ _ => rfl⟩

/-- C5: a request function that fails transiently on the first two
attempts and succeeds on the third: with `max_attempts = 3` the executor
returns the success value with the bandwidth summed over all three
attempts (failed ones included), after exactly 3 attempts; with
`max_attempts = 2` it propagates a retry-exhaustion failure after exactly
2 attempts, annotated with the operation name and the attempt count. -/
theorem try_request_retry_contract {α : Type} (fn : Nat → Attempt α)
    (opName : String) (e1 e2 : String) (b1 b2 b3 : BandwidthUsage) (v : α)
    (h1 : fn 1 = .retryable e1 b1) (h2 : fn 2 = .retryable e2 b2)
    (h3 : fn 3 = .ok v b3) :
    try_request fn opName 3 = (.ok v (b1 + b2 + b3), 3)
    ∧ try_request fn opName 2 = (.exhausted opName 2 e2 (b1 + b2), 2) := by
  constructor <;>
    simp [try_request, try_request_go, h1, h2, h3, bw_zero_add]

/-- Witness for C5 at a concrete request function. -/
theorem try_request_retry_contract_witness :
    try_request fnTwiceThenOk "op" 3
      = (.ok 7 ((⟨1, 2⟩ : BandwidthUsage) + ⟨3, 4⟩ + ⟨5, 6⟩), 3)
    ∧ try_request fnTwiceThenOk "op" 2
      = (.exhausted "op" 2 "Timeout" ((⟨1, 2⟩ : BandwidthUsage) + ⟨3, 4⟩), 2) :=
  try_request_retry_contract fnTwiceThenOk "op" "ConnectionError" "Timeout"
    ⟨1, 2⟩ ⟨3, 4⟩ ⟨5, 6⟩ 7 rfl rfl rfl

/-- C7: on every `Post`, a field whose raw value equals its designated
"none" sentinel (empty string for the attachment base and extension,
"无名氏" for the name, "无标题" for the title) projects to absent, and
any other raw value is returned unchanged. -/
theorem post_sentinel_projection (raw : Raw) (v : PyVal) :
    (assocFind raw "img" = some v →
      (v = .str "" → (Post.mk raw).attachment_base = .ok none)
      ∧ (v ≠ .str "" → (Post.mk raw).attachment_base = .ok (some v)))
    ∧ (assocFind raw "ext" = some v →
      (v = .str "" → (Post.mk raw).attachment_extension = .ok none)
      ∧ (v ≠ .str "" → (Post.mk raw).attachment_extension = .ok (some v)))
    ∧ (assocFind raw "name" = some v →
      (v = .str "无名氏" → (Post.mk raw).name = .ok none)
      ∧ (v ≠ .str "无名氏" → (Post.mk raw).name = .ok (some v)))
    ∧ (assocFind raw "title" = some v →
      (v = .str "无标题" → (Post.mk raw).title = .ok none)
      ∧ (v ≠ .str "无标题" → (Post.mk raw).title = .ok (some v))) := by
  refine ⟨fun h => ⟨fun hv => ?_, fun hv => ?_⟩,
          fun h => ⟨fun hv => ?_, fun hv => ?_⟩,
          fun h => ⟨fun hv => ?_, fun hv => ?_⟩,
          fun h => ⟨fun hv => ?_, fun hv => ?_⟩⟩ <;>
    simp [Post.attachment_base, Post.attachment_extension, Post.name,
      Post.title, dictGet, h, _none_if, hv, Except.map]

/-- Witness for C7 on a concrete reply record (all four sentinels hit)
and on a concrete thread record projecting a non-sentinel title. -/
theorem post_sentinel_projection_witness :
    (Post.ofReply rawReply).attachment_base = .ok none
    ∧ (Post.ofReply rawReply).attachment_extension = .ok none
    ∧ (Post.ofReply rawReply).name = .ok none
    ∧ (Post.ofReply rawReply).title = .ok none
    ∧ (Post.mk rawThreadWithReplies).content = .ok (.str "op") := by
  refine ⟨?_, ?_, ?_, ?_, rfl⟩
  · exact ((post_sentinel_projection (Post.ofReply rawReply)._raw
      (.str "")).1 rfl).1 rfl
  · exact ((post_sentinel_projection (Post.ofReply rawReply)._raw
      (.str "")).2.1 rfl).1 rfl
  · exact ((post_sentinel_projection (Post.ofReply rawReply)._raw
      (.str "无名氏")).2.2.1 rfl).1 rfl
  · exact ((post_sentinel_projection (Post.ofReply rawReply)._raw
      (.str "无标题")).2.2.2 rfl).1 rfl

/-- C10 (implicit): the email projection applies the empty-string sentinel
— the same one used for attachments — mapping an empty raw email to
absent and returning any other value unchanged. -/
theorem post_email_empty_sentinel (raw : Raw) (v : PyVal)
    (h : assocFind raw "email" = some v) :
    (v = .str "" → (Post.mk raw).email = .ok none)
    ∧ (v ≠ .str "" → (Post.mk raw).email = .ok (some v)) := by
  refine ⟨fun hv => ?_, fun hv => ?_⟩ <;>
    simp [Post.email, dictGet, h, _none_if, hv, Except.map]

/-- C3: a board fetch at a page equal to the board gatekeeper page passes
the hard gate (the gatekeeper check defers to the generic login decision),
while any strictly greater page fails immediately with the Gatekept error
— for every policy and credential state, with zero network attempts
performed. -/
theorem board_gatekeeper_boundary (board_id : Int) (page gk_pn : Nat)
    (login_policy : LoginPolicy) (has_cookie : Bool) (max_attempts : Nat)
    (oracle : Nat → BoardResp) :
    (page = gk_pn →
      board_page_requires_login page gk_pn login_policy has_cookie
        = .ok (page_requires_login page gk_pn login_policy has_cookie)
      ∧ (get_board_page board_id page gk_pn login_policy has_cookie
          max_attempts oracle).1 ≠ .gated)
    ∧ (page > gk_pn →
      board_page_requires_login page gk_pn login_policy has_cookie
        = .error ⟨"check_if_board_page_requires_login"⟩
      ∧ get_board_page board_id page gk_pn login_policy has_cookie
          max_attempts oracle = (.gated, 0)) := by
  constructor
  · intro h
    subst h
    have hng : ¬ page > page := lt_irrefl page
    refine ⟨by simp [board_page_requires_login, hng], ?_⟩
    simp only [get_board_page, board_page_requires_login, if_neg hng]
    split <;> simp
  · intro h
    refine ⟨by simp [board_page_requires_login, h], ?_⟩
    simp [get_board_page, board_page_requires_login, h]

/-- Witness for C3 at the default gatekeeper page 100: page 100 passes the
gate, page 101 is Gatekept with no network attempt, even with a credential
present. -/
theorem board_gatekeeper_boundary_witness :
    (board_page_requires_login 100 100 .when_required true
        = .ok (page_requires_login 100 100 .when_required true)
      ∧ (get_board_page 4 100 100 .when_required true 3 boardOracleEmpty).1
          ≠ .gated)
    ∧ (board_page_requires_login 101 100 .when_required true
        = .error ⟨"check_if_board_page_requires_login"⟩
      ∧ get_board_page 4 101 100 .when_required true 3 boardOracleEmpty
          = (.gated, 0)) :=
  ⟨(board_gatekeeper_boundary 4 100 100 .when_required true 3
      boardOracleEmpty).1 rfl,
   (board_gatekeeper_boundary 4 101 100 .when_required true 3
      boardOracleEmpty).2 (by decide)⟩

/-- C4: a thread-page fetch never fails Gatekept at any page; it fails
RequiresLogin exactly when the gatekeeper decision requires login and no
credential is present, and in that case it does so with zero network
attempts performed. -/
theorem thread_fetch_no_gated (id : Int) (page gk_pn : Nat)
    (login_policy : LoginPolicy) (has_cookie : Bool) (max_attempts : Nat)
    (for_analysis : Bool) (oracle : Nat → ThreadResp) :
    (get_thread_page id page gk_pn login_policy has_cookie max_attempts
        for_analysis oracle).1 ≠ .gated
    ∧ ((get_thread_page id page gk_pn login_policy has_cookie max_attempts
        for_analysis oracle).1 = .requiresLogin
      ↔ (page_requires_login page gk_pn login_policy has_cookie = true
          ∧ has_cookie = false))
    ∧ (page_requires_login page gk_pn login_policy has_cookie = true →
        has_cookie = false →
        get_thread_page id page gk_pn login_policy has_cookie max_attempts
          for_analysis oracle = (.requiresLogin, 0)) := by
  by_cases hc : (thread_page_requires_login page gk_pn login_policy
      has_cookie && !has_cookie) = true
  · have heq : get_thread_page id page gk_pn login_policy has_cookie
        max_attempts for_analysis oracle = (.requiresLogin, 0) := by
      simp only [get_thread_page, if_pos hc]
    rw [Bool.and_eq_true, Bool.not_eq_true'] at hc
    exact ⟨by simp [heq], by rw [heq]; exact iff_of_true rfl hc,
      fun _ _ => heq⟩
  · have hshape : (∃ r, (get_thread_page id page gk_pn login_policy
        has_cookie max_attempts for_analysis oracle).1 = .exec r)
        ∨ (∃ e, (get_thread_page id page gk_pn login_policy has_cookie
            max_attempts for_analysis oracle).1 = .crashed e) := by
      simp only [get_thread_page, if_neg hc]
      split
      · split
        · split
          · exact Or.inl ⟨_, rfl⟩
          · exact Or.inr ⟨_, rfl⟩
        · exact Or.inl ⟨_, rfl⟩
      · exact Or.inl ⟨_, rfl⟩
      · exact Or.inl ⟨_, rfl⟩
    have hcond : ¬(page_requires_login page gk_pn login_policy has_cookie
        = true ∧ has_cookie = false) := by
      rw [Bool.and_eq_true, Bool.not_eq_true'] at hc
      exact fun h => hc ⟨h.1, h.2⟩
    rcases hshape with ⟨r, hr⟩ | ⟨e, he⟩
    · exact ⟨by simp [hr], by simp [hr, hcond], fun h1 h2 => absurd ⟨h1, h2⟩ hcond⟩
    · exact ⟨by simp [he], by simp [he, hcond], fun h1 h2 => absurd ⟨h1, h2⟩ hcond⟩

/-- Witness for C4: under the `enforce` policy with no credential, the
thread fetch fails RequiresLogin with zero attempts; with a credential and
a transiently failing transport it is never Gatekept. -/
theorem thread_fetch_no_gated_witness :
    get_thread_page 29556631 1 100 .enforce false 3 false threadOracleDown
      = (.requiresLogin, 0)
    ∧ (get_thread_page 29556631 200 100 .when_required true 3 false
        threadOracleDown).1 ≠ .gated :=
  ⟨(thread_fetch_no_gated 29556631 1 100 .enforce false 3 false
      threadOracleDown).2.2 rfl rfl,
   (thread_fetch_no_gated 29556631 200 100 .when_required true 3 false
      threadOracleDown).1⟩

/-- C2: the reply-response interpreter is a 3-state classifier.  No
system-message container → Unknown Response with the raw body.  Container
holding a success marker → success.  Otherwise, container holding an
error marker → Reply Rejected with the first error marker's text and an
optional detail text, an empty detail being normalized to absent.
Otherwise (container present, neither marker) → Unknown Response. -/
theorem reply_interpreter_classification (resp_body : String) :
    interpret_reply_response resp_body none = .unknownResponse resp_body
    ∧ (∀ c : List Element, (∃ e ∈ c, e.tag = "p" ∧ e.cls = "success") →
        interpret_reply_response resp_body (some c) = .success)
    ∧ (∀ c : List Element,
        (∀ e ∈ c, ¬(e.tag = "p" ∧ e.cls = "success")) →
        (∀ e ∈ c, ¬(e.tag = "p" ∧ e.cls = "error")) →
        interpret_reply_response resp_body (some c)
          = .unknownResponse resp_body)
    ∧ (∀ (c : List Element) (e0 : Element) (rest : List Element),
        (∀ e ∈ c, ¬(e.tag = "p" ∧ e.cls = "success")) →
        find_all_p c "error" = e0 :: rest →
        (find_all_p c "detail" = [] →
          interpret_reply_response resp_body (some c)
            = .replyException e0.text none)
        ∧ (∀ (d0 : Element) (drest : List Element),
            find_all_p c "detail" = d0 :: drest →
            (d0.text = "" → interpret_reply_response resp_body (some c)
                = .replyException e0.text none)
            ∧ (d0.text ≠ "" → interpret_reply_response resp_body (some c)
                = .replyException e0.text (some d0.text)))) := by
  refine ⟨rfl, ?_, ?_, ?_⟩
  · intro c h
    obtain ⟨e, he, h1, h2⟩ := h
    have hne : find_all_p c "success" ≠ [] := by
      rw [find_all_p, Ne, List.filter_eq_nil_iff]
      push_neg
      exact ⟨e, he, by simp [h1, h2]⟩
    have hlen : (find_all_p c "success").length ≠ 0 := by
      simpa [List.length_eq_zero] using hne
    simp [interpret_reply_response, hlen]
  · intro c hs herr
    have hs0 : find_all_p c "success" = [] := by
      rw [find_all_p, List.filter_eq_nil_iff]
      intro e he
      simpa using fun h1 h2 => hs e he ⟨h1, h2⟩
    have he0 : find_all_p c "error" = [] := by
      rw [find_all_p, List.filter_eq_nil_iff]
      intro e he
      simpa using fun h1 h2 => herr e he ⟨h1, h2⟩
    simp [interpret_reply_response, hs0, he0]
  · intro c e0 rest hs herr
    have hs0 : find_all_p c "success" = [] := by
      rw [find_all_p, List.filter_eq_nil_iff]
      intro e he
      simpa using fun h1 h2 => hs e he ⟨h1, h2⟩
    refine ⟨fun hd => ?_, fun d0 drest hd => ⟨fun ht => ?_, fun ht => ?_⟩⟩
    · simp [interpret_reply_response, hs0, herr, hd]
    · simp [interpret_reply_response, hs0, herr, hd, ht]
    · simp [interpret_reply_response, hs0, herr, hd, ht]

/-- Witness for C2 on the spec's literal fixtures: the success container,
the "没有选定回复的帖子" error container with empty detail, a container
with neither marker, and a missing container. -/
theorem reply_interpreter_classification_witness :
    interpret_reply_response "<html>1</html>" (some fixtureSuccessDiv)
      = .success
    ∧ interpret_reply_response "<html>2</html>" (some fixtureErrorDiv)
      = .replyException "没有选定回复的帖子" none
    ∧ interpret_reply_response "<html>3</html>" (some [⟨"h1", "", ":|"⟩])
      = .unknownResponse "<html>3</html>"
    ∧ interpret_reply_response "<html>4</html>" none
      = .unknownResponse "<html>4</html>" :=
  ⟨(reply_interpreter_classification "<html>1</html>").2.1 fixtureSuccessDiv
      ⟨⟨"p", "success", "回复成功"⟩, by decide, rfl, rfl⟩,
   (((reply_interpreter_classification "<html>2</html>").2.2.2 fixtureErrorDiv
        ⟨"p", "error", "没有选定回复的帖子"⟩ [] (by decide) (by decide)).2
        ⟨"p", "detail", ""⟩ [] (by decide)).1 rfl,
   (reply_interpreter_classification "<html>3</html>").2.2.1 [⟨"h1", "", ":|"⟩]
      (by decide) (by decide),
   (reply_interpreter_classification "<html>4</html>").1⟩

/-- C6 (code bug): on a raw thread record that carries a reply
collection, constructing the `Thread` and re-serializing it without ever
touching `replies` does **not** reproduce the original record —
`to_json` stores `map(lambda post: post.body, ...)` (a lazy map over a
`body` attribute `Post` does not define) under `"replys"`, and
`json.dumps` rejects that map object with a `TypeError`.  Only a record
that never had a reply collection round-trips. -/
theorem thread_roundtrip_crashes_on_replies :
    Except.bind (Thread.ofData rawThreadWithReplies) Thread.to_json
      = Except.error PyError.typeError
    ∧ Except.bind (Thread.ofData rawThreadNoReplies) Thread.to_json
      = Except.ok rawThreadNoReplies :=
  ⟨rfl, rfl⟩

/-- C8: a thread-page fetch with `for_analysis` set materializes exactly
the replies whose author identifier differs from the reserved system
identity "芦苇", preserving their relative order (the kept sequence is a
sublist of the decoded reply sequence). -/
theorem thread_fetch_for_analysis_filters (id : Int) (page gk_pn : Nat)
    (login_policy : LoginPolicy) (has_cookie : Bool) (max_attempts : Nat)
    (oracle : Nat → ThreadResp) (d : Raw) (rs : List PostRaw)
    (bw : BandwidthUsage)
    (hpre : (thread_page_requires_login page gk_pn login_policy has_cookie
        && !has_cookie) = false)
    (h1 : oracle 1 = .record d bw)
    (hreplys : assocFind d "replys" = some (.postList rs))
    (huid : ∀ r ∈ rs, ∃ s, assocFind r "userid" = some s) :
    ∃ kept : List Post,
      get_thread_page id page gk_pn login_policy has_cookie max_attempts
          true oracle
        = (.exec (.ok ⟨assocSet d "replys" .pynone, some (.posts kept)⟩ bw), 1)
      ∧ kept.Sublist (rs.map Post.ofReply)
      ∧ ∀ p : Post, p ∈ kept ↔
          (p ∈ rs.map Post.ofReply
            ∧ p.user_id ≠ Except.ok (.str "芦苇")) := by
  have hof : Thread.ofData d
      = .ok ⟨assocSet d "replys" .pynone, some (.lazyMap rs)⟩ := by
    simp [Thread.ofData, hreplys]
  have hfn : thread_request_fn oracle 1
      = .ok ⟨assocSet d "replys" .pynone, some (.lazyMap rs)⟩ bw := by
    simp [thread_request_fn, h1, hof]
  have htr : ∀ opName : String,
      try_request (thread_request_fn oracle) opName max_attempts
        = (.ok ⟨assocSet d "replys" .pynone, some (.lazyMap rs)⟩ bw, 1) := by
    intro opName
    simp [try_request, try_request_go, hfn, bw_zero_add]
  have hmap : ∀ p ∈ rs.map Post.ofReply, ∃ v, p.user_id = Except.ok v := by
    intro p hp
    obtain ⟨r, hr, hpr⟩ := List.mem_map.mp hp
    obtain ⟨s, hs⟩ := huid r hr
    refine ⟨scalarVal s, ?_⟩
    rw [← hpr]
    simp [Post.user_id, Post.ofReply, dictGet, assocFind_ofReply, hs]
  have haf : analysisFilter
        ((Replies.lazyMap rs).toPostList)
      = Except.ok ((rs.map Post.ofReply).filter keepPost) := by
    rw [Replies.toPostList]
    exact analysisFilter_ok _ hmap
  have happ : applyAnalysisFilter
        ⟨assocSet d "replys" .pynone, some (.lazyMap rs)⟩
      = Except.ok ⟨assocSet d "replys" .pynone,
          some (.posts ((rs.map Post.ofReply).filter keepPost))⟩ := by
    simp [applyAnalysisFilter, haf, Except.map]
  refine ⟨(rs.map Post.ofReply).filter keepPost, ?_,
    List.filter_sublist _, ?_⟩
  · simp [get_thread_page, hpre, htr, happ]
  · intro p
    rw [List.mem_filter]
    constructor
    · rintro ⟨hm, hk⟩
      refine ⟨hm, ?_⟩
      obtain ⟨v, hv⟩ := hmap p hm
      simp [keepPost, hv] at hk
      rw [hv]
      exact fun he => hk (by injection he)
    · rintro ⟨hm, hne⟩
      obtain ⟨v, hv⟩ := hmap p hm
      rw [hv] at hne
      refine ⟨hm, ?_⟩
      simp [keepPost, hv]
      exact fun he => hne (by rw [he])

/-- Witness for C8: the fixture thread with one ordinary reply and one
"芦苇" reply keeps exactly the ordinary one. -/
theorem thread_fetch_for_analysis_filters_witness :
    ∃ kept : List Post,
      get_thread_page 1 1 100 .when_required false 3 true threadOracleReplies
        = (.exec (.ok ⟨assocSet rawThreadWithReplies "replys" .pynone,
            some (.posts kept)⟩ ⟨11, 250⟩), 1)
      ∧ kept.Sublist ([rawReply, rawReplyLuwei].map Post.ofReply)
      ∧ ∀ p : Post, p ∈ kept ↔
          (p ∈ [rawReply, rawReplyLuwei].map Post.ofReply
            ∧ p.user_id ≠ Except.ok (.str "芦苇")) :=
  thread_fetch_for_analysis_filters 1 1 100 .when_required false 3
    threadOracleReplies rawThreadWithReplies [rawReply, rawReplyLuwei]
    ⟨11, 250⟩ rfl rfl rfl
    (by
      intro r hr
      simp only [List.mem_cons, List.not_mem_nil, or_false] at hr
      rcases hr with hr | hr <;> subst hr
      · exact ⟨.str "abc123", rfl⟩
      · exact ⟨.str "芦苇", rfl⟩)

/-- C9 (counterexample): the reply-submission workflow is **not** routed
through the executor.  With a transport that fails transiently on the
first POST and would succeed on the second, and an attempt ceiling of 2,
the workflow propagates the first failure after a single POST instead of
retrying to success. -/
theorem reply_thread_no_retry_counterexample :
    reply_thread replyOracleFlaky 2 = (.httpFailure "HTTPError", 1)
    ∧ reply_thread replyOracleFlaky 2 ≠ (.success, 2) :=
  ⟨rfl, by decide⟩

/-- C9 (amended): the reply-submission workflow performs its write call
exactly once; its outcome is independent of the configured attempt ceiling
and carries no bandwidth-usage total. -/
theorem reply_thread_single_attempt (oracle : Nat → PostResp) (m1 m2 : Nat) :
    (reply_thread oracle m1).2 = 1
    ∧ reply_thread oracle m1 = reply_thread oracle m2 := by
  cases h : oracle 1 <;> simp [reply_thread, h]

/-- Witness for C10: the fixture reply's empty email projects to absent;
a populated email is returned unchanged. -/
theorem post_email_empty_sentinel_witness :
    (Post.ofReply rawReply).email = .ok none
    ∧ (Post.mk [("email", PyVal.str "sage")]).email = .ok (some (.str "sage")) :=
  ⟨(post_email_empty_sentinel (Post.ofReply rawReply)._raw (.str "") rfl).1 rfl,
   (post_email_empty_sentinel [("email", PyVal.str "sage")] (.str "sage")
      rfl).2 (by simp)⟩

end Anobbsclient
